import Mathlib

/-!
Shallow embedding of `src/app/products/[id]/page.js`: the `ProductDetails`
client component of the product-detail view.  Pure rendering computations
(star counts, stock badge, reviews panel, carousel arithmetic) become Lean
functions; the React `useState`/`useEffect` data-loading behaviour becomes
explicit state passing over a `ViewState` record.  JavaScript numbers that
matter here are small integers and decimal ratings, modelled as `Int`/`Rat`.
-/

namespace ProductDetailsPage

/-- A review, per the shape consumed at lines 215-224 of the source
(`reviewerName`, `date`, `comment`, `rating`). -/
structure Review where
  reviewerName : String
  date : String
  comment : String
  rating : ℚ
deriving Repr, DecidableEq

/-- The structured aggregate rating read at line 180 (`product.rating?.rate`). -/
structure Rating where
  rate : ℚ
deriving Repr, DecidableEq

/-- A product record as consumed by the component: `title`, `price`,
`category`, `description`, `stock`, `images`, `tags`, optional structured
`rating`, optional `reviews`. -/
structure Product where
  title : String
  price : ℚ
  category : String
  description : String
  stock : ℤ
  images : List String
  tags : List String
  rating : Option Rating
  reviews : Option (List Review)
deriving Repr, DecidableEq

/-- JavaScript `Math.round x` on the (non-NaN, finite) numbers arising here:
`Math.round` returns the floor of `x + 0.5` (ties round toward positive
infinity). -/
def mathRound (q : ℚ) : ℤ := ⌊q + 1/2⌋

/-- JavaScript `x || 0` applied to a possibly-absent numeric field:
`undefined` (modelled as `none`) and `0` are falsy, every other rational is
truthy and is returned unchanged. -/
def orZero (x : Option ℚ) : ℚ :=
  match x with
  | none => 0
  | some q => q

/-- Line 180: `Math.round(product.rating?.rate || 0)` — the number of star
glyphs rendered for the product aggregate rating. -/
def productStarCount (p : Product) : ℤ :=
  mathRound (orZero (p.rating.map Rating.rate))

/-- Line 223: `Math.round(review.rating || 0)` — the number of star glyphs
rendered for one review. -/
def reviewStarCount (r : Review) : ℤ :=
  mathRound (orZero (some r.rating))

/-- Lines 180 and 223: an Array of length `n` filled with the star glyph and
joined with the empty separator — the rendered string of `n` star glyphs
(for the non-negative counts arising from ratings). -/
def starGlyphString (n : ℤ) : String :=
  String.mk (List.replicate n.toNat '★')

/-- Specification-side definition, following the words of the spec:
"rounding uses standard round-half-up on the numeric rate" — the floor when
the fractional part is below one half, the next integer otherwise (ties
rounded up).  Stated independently of `mathRound` so the two can be
compared. -/
def roundHalfUpSpec (q : ℚ) : ℤ :=
  if q - ⌊q⌋ < 1/2 then ⌊q⌋ else ⌊q⌋ + 1

/-- Lines 95 and 98: the stock badge text,
`product.stock > 0 ? "In Stock" : "Out of Stock"`. -/
def stockBadgeLabel (stock : ℤ) : String :=
  if stock > 0 then "In Stock" else "Out of Stock"

/-- Line 95: the stock badge background class,
`product.stock > 0 ? "bg-indigo-600" : "bg-red-500"`. -/
def stockBadgeColor (stock : ℤ) : String :=
  if stock > 0 then "bg-indigo-600" else "bg-red-500"

/-- Lines 69-73, `handleNextImage`: the state update
`prevIndex === product.images.length - 1 ? 0 : prevIndex + 1`.
The index is an `Int` because JavaScript arithmetic is not clamped. -/
def handleNextImage (images : List String) (prevIndex : ℤ) : ℤ :=
  if prevIndex = (images.length : ℤ) - 1 then 0 else prevIndex + 1

/-- Lines 78-82, `handlePreviousImage`: the state update
`prevIndex === 0 ? product.images.length - 1 : prevIndex - 1`. -/
def handlePreviousImage (images : List String) (prevIndex : ℤ) : ℤ :=
  if prevIndex = 0 then (images.length : ℤ) - 1 else prevIndex - 1

/-- Line 157: clicking thumbnail `index` runs
`setCurrentImageIndex(index)` — the new index is the clicked one. -/
def thumbnailClick (index : ℤ) : ℤ := index

/-- Line 207: the reviews toggle button runs
`setReviewsVisible(!reviewsVisible)`. -/
def toggleReviews (reviewsVisible : Bool) : Bool := !reviewsVisible

/-- One user interaction with the carousel: the next arrow (line 126), the
previous arrow (line 106), or a click on thumbnail `k` (line 157). -/
inductive CarouselOp where
  | next : CarouselOp
  | prev : CarouselOp
  | thumb : ℕ → CarouselOp
deriving Repr, DecidableEq

/-- Applying one carousel interaction to the current index. -/
def applyCarouselOp (images : List String) (i : ℤ) : CarouselOp → ℤ
  | CarouselOp.next => handleNextImage images i
  | CarouselOp.prev => handlePreviousImage images i
  | CarouselOp.thumb k => thumbnailClick (k : ℤ)

/-- Running a sequence of carousel interactions from the initial index 0
(line 36: `useState(0)`). -/
def runCarousel (images : List String) (ops : List CarouselOp) : ℤ :=
  ops.foldl (applyCarouselOp images) 0

/-- A thumbnail click produced by the thumbnail strip (lines 149-165)
carries an index of the `images` sequence. -/
def validCarouselOp (images : List String) : CarouselOp → Prop
  | CarouselOp.thumb k => k < images.length
  | _ => True

/-- The component's local state (lines 33-37): `product`, `loading`,
`error`, `currentImageIndex`, `reviewsVisible`. -/
structure ViewState where
  product : Option Product
  loading : Bool
  error : Option String
  currentImageIndex : ℤ
  reviewsVisible : Bool
deriving Repr, DecidableEq

/-- The initial state (lines 33-37): `useState(null)`, `useState(true)`,
`useState(null)`, `useState(0)`, `useState(false)`. -/
def initialState : ViewState :=
  { product := none, loading := true, error := none,
    currentImageIndex := 0, reviewsVisible := false }

/-- The outcome of one `fetch` call: an HTTP response with a status and a
parsed JSON body, or a rejected promise (network/transport failure). -/
inductive FetchResult where
  | response : ℕ → Product → FetchResult
  | networkError : FetchResult
deriving Repr, DecidableEq

/-- HTTP response `ok` flag: status in the 2xx range. -/
def responseOk (status : ℕ) : Bool := 200 ≤ status && status < 300

/-- Lines 15-21, `fetchProductDetails`: awaits the fetch; if the response
is not ok it throws an Error carrying the message "Failed to fetch product
details", else it resolves to the parsed body.  A rejected fetch propagates
as a thrown error. -/
def fetchProductDetails : FetchResult → Except String Product
  | FetchResult.response status body =>
      if responseOk status then Except.ok body
      else Except.error "Failed to fetch product details"
  | FetchResult.networkError => Except.error "fetch failed"

/-- The fixed user-facing message stored at line 50. -/
def errorMessage : String := "Failed to load product details. Please try again later."

/-- Lines 44-45 of `loadProductDetails`: the synchronous prefix run before
the `await` — `setLoading(true); setError(null)`.  No other state is
touched here. -/
def loadStart (s : ViewState) : ViewState :=
  { s with loading := true, error := none }

/-- Lines 46-53 of `loadProductDetails`: the continuation run when the
awaited fetch settles — try setProduct(productData); catch by
setError(errorMessage); finally setLoading(false).  Total: the catch never
rethrows. -/
def loadSettle (s : ViewState) (r : FetchResult) : ViewState :=
  let s1 :=
    match fetchProductDetails r with
    | Except.ok productData => { s with product := some productData }
    | Except.error _ => { s with error := some errorMessage }
  { s1 with loading := false }

/-- Lines 42-56: one full run of the effect body for a given fetch outcome,
start followed by settle (no interleaved effect run). -/
def loadProductDetails (s : ViewState) (r : FetchResult) : ViewState :=
  loadSettle (loadStart s) r

/-- What the component returns: lines 58-60 (loading), 62-64 (error), or
the product markup (lines 84-244).  `none` models the crash that dereferencing
a `null` product would be. -/
inductive RenderedView where
  | loadingView : RenderedView
  | errorView : String → RenderedView
  | productView : Product → ℤ → Bool → RenderedView
deriving Repr, DecidableEq

/-- The early-return chain of the component (lines 58-64) followed by the
product markup: loading wins, then error, then the product with the current
image index and reviews visibility. -/
def render (s : ViewState) : Option RenderedView :=
  if s.loading then some RenderedView.loadingView
  else
    match s.error with
    | some m => some (RenderedView.errorView m)
    | none => s.product.map fun p =>
        RenderedView.productView p s.currentImageIndex s.reviewsVisible

/-- The reviews section content (lines 212-231). -/
inductive ReviewsPanel where
  | hidden : ReviewsPanel
  | reviewList : List Review → ReviewsPanel
  | emptyState : String → ReviewsPanel
deriving Repr, DecidableEq

/-- Lines 212-231: `reviewsVisible && (product.reviews?.length > 0 ?
product.reviews.map(...) : <p>No reviews yet.</p>)`.  An absent `reviews`
field makes `reviews?.length > 0` false, so the empty state shows.  The
`map` preserves order, so the rendered list is the reviews list itself. -/
def renderReviewsPanel (reviewsVisible : Bool) (reviews : Option (List Review)) : ReviewsPanel :=
  if reviewsVisible then
    match reviews with
    | some l => if l.length > 0 then ReviewsPanel.reviewList l
                else ReviewsPanel.emptyState "No reviews yet."
    | none => ReviewsPanel.emptyState "No reviews yet."
  else ReviewsPanel.hidden

/-- A concrete review with rating 4.6, for witnesses. -/
def sampleReview : Review :=
  { reviewerName := "Alice M", date := "2024-05-23T08:56:21.618Z",
    comment := "Very satisfied!", rating := 46/10 }

/-- A concrete review with rating 4.4, for witnesses. -/
def sampleReview44 : Review :=
  { reviewerName := "Bob N", date := "2024-05-23T08:56:21.618Z",
    comment := "Quite good", rating := 44/10 }

/-- A concrete product with four images, structured rating 4.6 and two
reviews, for witnesses. -/
def sampleProduct : Product :=
  { title := "Essence Mascara Lash Princess", price := 995/100,
    category := "beauty", description := "Popular mascara",
    stock := 5, images := ["img0", "img1", "img2", "img3"],
    tags := ["beauty", "mascara"], rating := some { rate := 46/10 },
    reviews := some [sampleReview, sampleReview44] }

/-- A concrete product with a single image, used as the target of an
identifier change. -/
def productA : Product :=
  { title := "Product A", price := 10, category := "c", description := "a",
    stock := 0, images := ["a0"], tags := [], rating := none,
    reviews := some [] }

/-- A second concrete product, distinct from `productA`. -/
def productB : Product :=
  { title := "Product B", price := 20, category := "c", description := "b",
    stock := 3, images := ["b0", "b1"], tags := [], rating := none,
    reviews := none }

/-- A state in which `sampleProduct` is already loaded, the carousel shows
the thumbnail-selected image 3 and the reviews panel has been toggled open:
used to exercise the refetch transitions. -/
def browsingState : ViewState :=
  { product := some sampleProduct, loading := false, error := none,
    currentImageIndex := thumbnailClick 3, reviewsVisible := toggleReviews false }

/-- JavaScript Math.round and the round-half-up of the spec agree on every
rational: both are the floor of the argument plus one half. -/
theorem mathRound_eq_roundHalfUpSpec (q : ℚ) : mathRound q = roundHalfUpSpec q := by
  have hfl : (⌊q⌋ : ℚ) ≤ q := Int.floor_le q
  have hlt : q < ⌊q⌋ + 1 := Int.lt_floor_add_one q
  unfold mathRound roundHalfUpSpec
  by_cases h : q - ⌊q⌋ < 1/2
  · rw [if_pos h, Int.floor_eq_iff]
    exact ⟨by linarith, by linarith⟩
  · rw [if_neg h, Int.floor_eq_iff]
    push_cast
    constructor <;> linarith [not_lt.mp h]

/-- The star string has exactly the requested number of glyphs. -/
theorem starGlyphString_length (n : ℤ) : (starGlyphString n).length = n.toNat := by
  simp [starGlyphString]

/-- C1: the number of star glyphs rendered equals the round-half-up
rounding of the numeric rating value, for the product aggregate rating
(read from the structured rate field) as well as for each individual review
rating; in particular a rating of 4.6 yields 5 glyphs and 4.4 yields 4. -/
theorem star_glyph_count_round_half_up (p : Product) (rt : Rating) (r : Review)
    (hp : p.rating = some rt) :
    productStarCount p = roundHalfUpSpec rt.rate ∧
    (starGlyphString (productStarCount p)).length = (roundHalfUpSpec rt.rate).toNat ∧
    reviewStarCount r = roundHalfUpSpec r.rating ∧
    (starGlyphString (reviewStarCount r)).length = (roundHalfUpSpec r.rating).toNat ∧
    roundHalfUpSpec (46/10) = 5 ∧ roundHalfUpSpec (44/10) = 4 := by
  have h1 : productStarCount p = roundHalfUpSpec rt.rate := by
    unfold productStarCount
    rw [hp]
    exact mathRound_eq_roundHalfUpSpec rt.rate
  have h2 : reviewStarCount r = roundHalfUpSpec r.rating := by
    unfold reviewStarCount
    exact mathRound_eq_roundHalfUpSpec r.rating
  refine ⟨h1, ?_, h2, ?_, by norm_num [roundHalfUpSpec], by norm_num [roundHalfUpSpec]⟩
  · rw [starGlyphString_length, h1]
  · rw [starGlyphString_length, h2]

/-- Witness for C1 at concrete data: the sample product with rate 4.6
renders 5 glyphs and the sample review with rating 4.4 renders 4. -/
theorem star_glyph_count_round_half_up_witness :
    productStarCount sampleProduct = 5 ∧ reviewStarCount sampleReview44 = 4 := by
  have h := star_glyph_count_round_half_up sampleProduct
      (Rating.mk (46/10)) sampleReview44 rfl
  exact ⟨h.1.trans h.2.2.2.2.1, h.2.2.1.trans h.2.2.2.2.2⟩

/-- C2 counterexample: with a product already in state, the synchronous
prefix of the refetch effect (setLoading true, setError null) leaves the
prior product in state — the product is not cleared before the new request
starts, contrary to the claim that both error and product are cleared. -/
theorem loading_transition_keeps_stale_product :
    (loadStart browsingState).product ≠ none := by
  simp [loadStart, browsingState]

/-- C2 (amended): on every transition to the Loading state the prior error
is cleared synchronously before the new request starts, while the prior
product is left unchanged (it is not cleared); nevertheless, after a
failure the view renders the fixed error message and never the stale
previous product, because the loading and error branches render before the
product branch. -/
theorem loading_transition_clears_error_only (s : ViewState) (r : FetchResult)
    (e : String) (hfail : fetchProductDetails r = Except.error e) :
    (loadStart s).loading = true ∧
    (loadStart s).error = none ∧
    (loadStart s).product = s.product ∧
    render (loadProductDetails s r) = some (RenderedView.errorView errorMessage) := by
  refine ⟨rfl, rfl, rfl, ?_⟩
  simp [render, loadProductDetails, loadSettle, loadStart, hfail]

/-- Witness for the amended C2: after a 500 response while a stale product
sits in state, the state transition keeps that product yet the view renders
the fixed error message. -/
theorem loading_transition_clears_error_only_witness :
    (loadStart browsingState).product = some sampleProduct ∧
    render (loadProductDetails browsingState (FetchResult.response 500 sampleProduct))
      = some (RenderedView.errorView errorMessage) := by
  have h := loading_transition_clears_error_only browsingState
      (FetchResult.response 500 sampleProduct)
      "Failed to fetch product details" rfl
  exact ⟨h.2.2.1, h.2.2.2⟩

/-- C3: for a current index i in bounds, the next operation yields 0 at the
last index and i + 1 otherwise, the previous operation yields the last
index at 0 and i - 1 otherwise, and a thumbnail click sets the index to the
clicked one. -/
theorem carousel_step_operations (images : List String) (i : ℤ) (k : ℕ)
    (_h0 : 0 ≤ i) (_hi : i < (images.length : ℤ)) :
    (i = (images.length : ℤ) - 1 → handleNextImage images i = 0) ∧
    (i ≠ (images.length : ℤ) - 1 → handleNextImage images i = i + 1) ∧
    (i = 0 → handlePreviousImage images i = (images.length : ℤ) - 1) ∧
    (i ≠ 0 → handlePreviousImage images i = i - 1) ∧
    thumbnailClick (k : ℤ) = (k : ℤ) := by
  refine ⟨fun h => ?_, fun h => ?_, fun h => ?_, fun h => ?_, rfl⟩ <;>
    simp [handleNextImage, handlePreviousImage, h]

/-- Witness for C3 on a two-image product at index 1: next wraps to 0 and
previous steps down to 0. -/
theorem carousel_step_operations_witness :
    handleNextImage ["img0", "img1"] 1 = 0 ∧
    handlePreviousImage ["img0", "img1"] 1 = 0 := by
  have h := carousel_step_operations ["img0", "img1"] 1 0 (by decide) (by decide)
  exact ⟨h.1 (by decide), (h.2.2.2.1 (by decide)).trans (by decide)⟩

/-- One in-bounds carousel interaction keeps the index in bounds. -/
theorem applyCarouselOp_bounds (images : List String) (op : CarouselOp)
    (hop : validCarouselOp images op) (i : ℤ)
    (h0 : 0 ≤ i) (hi : i < (images.length : ℤ)) :
    0 ≤ applyCarouselOp images i op ∧
    applyCarouselOp images i op < (images.length : ℤ) := by
  cases op with
  | next =>
      simp only [applyCarouselOp, handleNextImage]
      by_cases h : i = (images.length : ℤ) - 1
      · rw [if_pos h]; omega
      · rw [if_neg h]; omega
  | prev =>
      simp only [applyCarouselOp, handlePreviousImage]
      by_cases h : i = 0
      · rw [if_pos h]; omega
      · rw [if_neg h]; omega
  | thumb k =>
      simp only [applyCarouselOp, thumbnailClick]
      have hk : k < images.length := hop
      omega

/-- Folding any valid interaction sequence from an in-bounds index stays in
bounds. -/
theorem foldl_carousel_bounds (images : List String) (ops : List CarouselOp)
    (hops : ∀ op ∈ ops, validCarouselOp images op) (i : ℤ)
    (h0 : 0 ≤ i) (hi : i < (images.length : ℤ)) :
    0 ≤ ops.foldl (applyCarouselOp images) i ∧
    ops.foldl (applyCarouselOp images) i < (images.length : ℤ) := by
  induction ops generalizing i with
  | nil => exact ⟨h0, hi⟩
  | cons op rest ih =>
      have hop := hops op (List.mem_cons_self op rest)
      have h := applyCarouselOp_bounds images op hop i h0 hi
      exact ih (fun o ho => hops o (List.mem_cons_of_mem op ho)) _ h.1 h.2

/-- C4: for a non-empty images sequence the carousel index starts at 0 and,
after any sequence of next, previous and thumbnail-click interactions whose
thumbnail indices range over the images sequence, remains within
the half-open interval from 0 to the number of images. -/
theorem carousel_index_invariant (images : List String) (ops : List CarouselOp)
    (hne : images ≠ []) (hops : ∀ op ∈ ops, validCarouselOp images op) :
    initialState.currentImageIndex = 0 ∧
    0 ≤ runCarousel images ops ∧
    runCarousel images ops < (images.length : ℤ) := by
  have hlen : 0 < images.length := List.length_pos.mpr hne
  refine ⟨rfl, ?_⟩
  exact foldl_carousel_bounds images ops hops 0 le_rfl (by exact_mod_cast hlen)

/-- Witness for C4: a concrete interaction sequence on a four-image product
ends in bounds. -/
theorem carousel_index_invariant_witness :
    0 ≤ runCarousel ["img0", "img1", "img2", "img3"]
        [CarouselOp.next, CarouselOp.thumb 2, CarouselOp.prev, CarouselOp.prev] ∧
    runCarousel ["img0", "img1", "img2", "img3"]
        [CarouselOp.next, CarouselOp.thumb 2, CarouselOp.prev, CarouselOp.prev] < 4 := by
  have hval : ∀ op ∈ [CarouselOp.next, CarouselOp.thumb 2, CarouselOp.prev,
      CarouselOp.prev], validCarouselOp ["img0", "img1", "img2", "img3"] op := by
    intro op hop
    fin_cases hop <;> simp [validCarouselOp]
  have h := carousel_index_invariant ["img0", "img1", "img2", "img3"]
      [CarouselOp.next, CarouselOp.thumb 2, CarouselOp.prev, CarouselOp.prev]
      (by simp) hval
  exact ⟨h.2.1, h.2.2⟩

/-- C5: a non-2xx response makes the fetch helper throw the fixed internal
error, which the loading routine catches, storing the fixed user-facing
message that the view then renders; a thrown network error is handled the
same way; a 2xx response leaves the error state null and stores the parsed
product; and for every outcome the routine never rethrows — the view
always renders something. -/
theorem fetch_error_handling (s : ViewState) (status : ℕ) (body : Product)
    (r : FetchResult) :
    (responseOk status = false →
      fetchProductDetails (FetchResult.response status body) =
        Except.error "Failed to fetch product details" ∧
      (loadProductDetails s (FetchResult.response status body)).error
        = some errorMessage ∧
      render (loadProductDetails s (FetchResult.response status body)) =
        some (RenderedView.errorView errorMessage)) ∧
    ((loadProductDetails s FetchResult.networkError).error = some errorMessage ∧
      render (loadProductDetails s FetchResult.networkError) =
        some (RenderedView.errorView errorMessage)) ∧
    (responseOk status = true →
      (loadProductDetails s (FetchResult.response status body)).error = none ∧
      (loadProductDetails s (FetchResult.response status body)).product = some body) ∧
    (render (loadProductDetails s r)).isSome = true := by
  refine ⟨fun h => ?_, ?_, fun h => ?_, ?_⟩
  · simp [loadProductDetails, loadSettle, loadStart, fetchProductDetails, render, h]
  · simp [loadProductDetails, loadSettle, loadStart, fetchProductDetails, render]
  · simp [loadProductDetails, loadSettle, loadStart, fetchProductDetails, render, h]
  · cases r with
    | networkError =>
        simp [loadProductDetails, loadSettle, loadStart, fetchProductDetails, render]
    | response st b =>
        by_cases hok : responseOk st <;>
          simp [loadProductDetails, loadSettle, loadStart, fetchProductDetails,
            render, hok]

/-- Witness for C5: a 404 stores the fixed message, a 200 stores the parsed
product. -/
theorem fetch_error_handling_witness :
    (loadProductDetails initialState (FetchResult.response 404 sampleProduct)).error
        = some errorMessage ∧
    (loadProductDetails initialState (FetchResult.response 200 sampleProduct)).product
        = some sampleProduct := by
  refine ⟨((fetch_error_handling initialState 404 sampleProduct
      FetchResult.networkError).1 rfl).2.1, ?_⟩
  exact ((fetch_error_handling initialState 200 sampleProduct
      FetchResult.networkError).2.2.1 rfl).2

/-- C6: the stale-response race.  The identifier changes from 1 to 2 while
the request for 1 is still pending; the request for 2 settles first with
`productB`, then the superseded request for 1 settles with `productA`.
Because the settle continuation commits its response unconditionally, the
final state holds `productA` — the product of the superseded request, not
of the latest identifier — refuting the claim on the code as written. -/
theorem stale_response_race :
    (loadSettle (loadSettle (loadStart (loadStart initialState))
          (FetchResult.response 200 productB))
        (FetchResult.response 200 productA)).product = some productA ∧
    productA ≠ productB := by
  exact ⟨rfl, by decide⟩

/-- C7: the stock badge is the binary presentation derived from the stock
field alone (both definitions take only the stock number): the in-stock
label and colour show exactly when the stock is positive, the out-of-stock
ones otherwise. -/
theorem stock_badge_binary (stock : ℤ) :
    (stockBadgeLabel stock = "In Stock" ↔ 0 < stock) ∧
    (stockBadgeLabel stock = "Out of Stock" ↔ ¬ 0 < stock) ∧
    (stockBadgeColor stock = "bg-indigo-600" ↔ 0 < stock) ∧
    (stockBadgeColor stock = "bg-red-500" ↔ ¬ 0 < stock) := by
  by_cases h : 0 < stock <;>
    simp [stockBadgeLabel, stockBadgeColor, h]

/-- C8: the reviews panel starts hidden, each click of the toggle negates
the visibility (so two clicks restore the prior state), and after n clicks
from the initial state the panel is visible exactly when n is odd. -/
theorem reviews_visibility_parity :
    initialState.reviewsVisible = false ∧
    (∀ b, toggleReviews (toggleReviews b) = b) ∧
    (∀ n, (toggleReviews^[n] false = true ↔ n % 2 = 1)) := by
  refine ⟨rfl, fun b => by cases b <;> rfl, fun n => ?_⟩
  have key : ∀ m, toggleReviews^[m] false = decide (m % 2 = 1) := by
    intro m
    induction m with
    | zero => rfl
    | succ m ih =>
        rw [Function.iterate_succ_apply', ih]
        rcases Nat.mod_two_eq_zero_or_one m with h | h
        · have h1 : (m + 1) % 2 = 1 := by omega
          simp [toggleReviews, h, h1]
        · have h1 : (m + 1) % 2 = 0 := by omega
          simp [toggleReviews, h, h1]
  rw [key n]
  simp

/-- C9: with the panel visible, a non-empty reviews sequence is rendered in
full and in API order (the rendered list is the sequence itself), while an
empty or absent sequence renders the empty-state message; with the panel
hidden nothing is rendered. -/
theorem reviews_panel_contents (l : List Review) (hl : l ≠ []) :
    renderReviewsPanel true (some l) = ReviewsPanel.reviewList l ∧
    renderReviewsPanel true (some []) = ReviewsPanel.emptyState "No reviews yet." ∧
    renderReviewsPanel true none = ReviewsPanel.emptyState "No reviews yet." ∧
    renderReviewsPanel false (some l) = ReviewsPanel.hidden := by
  have hpos : 0 < l.length := List.length_pos.mpr hl
  refine ⟨?_, rfl, rfl, rfl⟩
  simp [renderReviewsPanel, hpos]

/-- Witness for C9: a one-review list is rendered as that list. -/
theorem reviews_panel_contents_witness :
    renderReviewsPanel true (some [sampleReview])
      = ReviewsPanel.reviewList [sampleReview] :=
  (reviews_panel_contents [sampleReview] (by simp)).1

/-- C10: the refetch effect touches only the loading, error and (on settle)
product fields, so an identifier change leaves the carousel index and the
reviews-panel visibility unchanged; concretely, starting from the browsing
state (image 3 selected, panel open) a switch to the one-image `productA`
keeps index 3 and the open panel, and the persisted index exceeds the new
image count. -/
theorem refetch_preserves_index_and_visibility :
    (∀ (s : ViewState) (r : FetchResult),
      (loadStart s).currentImageIndex = s.currentImageIndex ∧
      (loadStart s).reviewsVisible = s.reviewsVisible ∧
      (loadProductDetails s r).currentImageIndex = s.currentImageIndex ∧
      (loadProductDetails s r).reviewsVisible = s.reviewsVisible) ∧
    ((loadProductDetails browsingState
        (FetchResult.response 200 productA)).currentImageIndex = 3 ∧
      (loadProductDetails browsingState
        (FetchResult.response 200 productA)).reviewsVisible = true ∧
      (loadProductDetails browsingState
        (FetchResult.response 200 productA)).product = some productA ∧
      ¬ (loadProductDetails browsingState
          (FetchResult.response 200 productA)).currentImageIndex
        < (productA.images.length : ℤ)) := by
  constructor
  · intro s r
    cases hr : fetchProductDetails r <;>
      simp [loadProductDetails, loadSettle, loadStart, hr]
  · exact ⟨rfl, rfl, rfl, by decide⟩

end ProductDetailsPage
